import Mathlib

/-!
# Winder app — filter translation and query-assembly pipeline

Shallow embedding of the core of the `winder-app` repository:

* `wineFilterUtils` (`sanitizeStringList`, `convertToDBFilter`, `createDefaultFilter`)
* `referenceDataService` (canonical-name resolution for wine colors / types)
* `wineQueries` (`normalizeLanguageCode`, `fetchWines`, `buildWineTags`,
  `loadGrapesForWines`)
* `filterOptionsApi` (TTL cache: `shouldUseCache`, `getCacheValue`,
  `setCacheValue`, `fetchColorOptions`)
* `userPreferenceService` (`getUnratedWinesWithFilters`)

JavaScript `Map` / plain-object records are modelled as association lists
(insertion order preserved, last write wins), network round-trips as explicit
`Except`/failure-flag inputs, and JS numbers as exact rationals (`ℚ`).
-/

set_option maxRecDepth 4000

namespace Winder

/-! ## JS collection helpers -/

/-- JS `Map.get` / object property read on an association list. -/
def jsMapGet {α : Type} (m : List (String × α)) (k : String) : Option α :=
  (m.find? (fun p => p.1 == k)).map (fun p => p.2)

/-- JS `Map.set` / object property write: overwrite in place if the key is
present (keeping its position), otherwise append. -/
def jsMapSet {α : Type} (m : List (String × α)) (k : String) (v : α) :
    List (String × α) :=
  if m.any (fun p => p.1 == k) then
    m.map (fun p => if p.1 == k then (k, v) else p)
  else m ++ [(k, v)]

/-- JS `[...new Set(l)]`: drop later duplicates, keep first occurrences in
order. -/
def jsSetDedup {α : Type} [BEq α] (l : List α) : List α :=
  l.foldl (fun acc x => if acc.contains x then acc else acc ++ [x]) []

/-- JS `String.prototype.toLowerCase`, modelled character-wise. -/
def jsToLower (s : String) : String := ⟨s.data.map Char.toLower⟩

/-- JS `String.prototype.trim`, modelled character-wise: strip leading and
trailing whitespace. -/
def jsTrim (s : String) : String :=
  ⟨((s.data.dropWhile Char.isWhitespace).reverse.dropWhile Char.isWhitespace).reverse⟩

/-- JS `s.split('-')[0]`: the prefix of `s` before the first hyphen (the whole
string when there is no hyphen, `""` when `s` is empty — exactly what
`split('-')[0]` yields in each case). -/
def jsSplitDashHead (s : String) : String :=
  ⟨s.data.takeWhile (fun c => c != '-')⟩

/-- The numeric value of a decimal-digit character list (used to model
`parseFloat` on an already-matched digit group). -/
def digitsToNat (cs : List Char) : Nat :=
  cs.foldl (fun n c => 10 * n + (c.toNat - 48)) 0

/-- JS truthiness of a nullable string: `null`/`undefined` and `""` are
falsy. -/
def jsTruthyS (o : Option String) : Bool :=
  match o with
  | some s => !s.isEmpty
  | none => false

/-- JS `a || b` for a nullable string `a` with string default `b`. -/
def jsOrString (a : Option String) (b : String) : String :=
  match a with
  | some s => if s.isEmpty then b else s
  | none => b

/-- JS `a || b` for a nullable number `a` (zero is falsy) with default `b`. -/
def jsOrQ (a : Option ℚ) (b : ℚ) : ℚ :=
  match a with
  | some q => if q = 0 then b else q
  | none => b

/-- JS `a || null` for a nullable number: zero collapses to `null`. -/
def jsOrQNull (a : Option ℚ) : Option ℚ :=
  match a with
  | some q => if q = 0 then none else some q
  | none => none

/-- JS `a || null` for a nullable integer: zero collapses to `null`. -/
def jsOrIntNull (a : Option Int) : Option Int :=
  match a with
  | some n => if n = 0 then none else some n
  | none => none

/-- JS truthiness of a nullable number: `null`/`undefined` and `0` are
falsy. -/
def jsTruthyQ (o : Option ℚ) : Bool :=
  match o with
  | some q => !(q == 0)
  | none => false

/-! ## `utils/wineFilterUtils.ts` — filter translation -/

/-- `sanitizeStringList` from `wineFilterUtils`:
`list.filter(item => item?.trim()).map(item => item.trim())`.
Entries are nullable at runtime (the source guards with `item?.trim()`), so an
entry is modelled as `Option String`; `none` models `null`/`undefined`.
After the filter every surviving entry is non-null, so the map's `item.trim()`
is modelled by `jsTrim (item.getD "")`. -/
def sanitizeStringList (list : List (Option String)) : List String :=
  (list.filter (fun item =>
    match item with
    | some s => !(jsTrim s).isEmpty
    | none => false)).map (fun item => jsTrim (item.getD ""))

/-- The user-facing `WineFilter` (from `types.ts`): one string array per
filter dimension.  Entries are nullable at runtime; a whole field may also be
absent at runtime (the source reads `frontendFilter.country || []`), hence
`Option (List (Option String))`.  The legacy numeric fields (`wineTypes`,
`maxPrice`, `minPrice`, `regions`, `grapeVarieties`, `vintageRange`,
`alcoholRange`) are never read by the translation pipeline and are omitted. -/
structure WineFilter where
  grape : Option (List (Option String)) := none
  country : Option (List (Option String)) := none
  region : Option (List (Option String)) := none
  wineType : Option (List (Option String)) := none
  color : Option (List (Option String)) := none
  sweetness : Option (List (Option String)) := none
  productionType : Option (List (Option String)) := none
  unit : Option (List (Option String)) := none
  alcohol : Option (List (Option String)) := none
  price : Option (List (Option String)) := none
deriving Repr, DecidableEq

/-- `DatabaseWineFilter` (from `types.ts`): a sparse record — `none` models an
absent key.  `producer` is not declared in the interface but is read by
`fetchWines` at runtime, so it is included here. -/
structure DatabaseWineFilter where
  countries : Option (List String) := none
  regions : Option (List String) := none
  grape : Option (List String) := none
  wineType : Option (List String) := none
  color : Option (List String) := none
  sweetness : Option (List String) := none
  alcohol : Option (List String) := none
  unit : Option (List String) := none
  price : Option (List String) := none
  productionType : Option (List String) := none
  producer : Option (List String) := none
deriving Repr, DecidableEq

/-- `convertToDBFilter` from `wineFilterUtils`: per dimension, sanitize the
string list and include it in the output only when non-empty.  Note: the
source performs **no** canonicalization here — values are passed through
verbatim after sanitization. -/
def convertToDBFilter (frontendFilter : WineFilter) : DatabaseWineFilter :=
  let countries := sanitizeStringList (frontendFilter.country.getD [])
  let regions := sanitizeStringList (frontendFilter.region.getD [])
  let grapes := sanitizeStringList (frontendFilter.grape.getD [])
  let wineTypes := sanitizeStringList (frontendFilter.wineType.getD [])
  let colors := sanitizeStringList (frontendFilter.color.getD [])
  let sweetness := sanitizeStringList (frontendFilter.sweetness.getD [])
  let alcohol := sanitizeStringList (frontendFilter.alcohol.getD [])
  let unit := sanitizeStringList (frontendFilter.unit.getD [])
  let price := sanitizeStringList (frontendFilter.price.getD [])
  let productionType := sanitizeStringList (frontendFilter.productionType.getD [])
  { countries := if countries.length > 0 then some countries else none
    regions := if regions.length > 0 then some regions else none
    grape := if grapes.length > 0 then some grapes else none
    wineType := if wineTypes.length > 0 then some wineTypes else none
    color := if colors.length > 0 then some colors else none
    sweetness := if sweetness.length > 0 then some sweetness else none
    alcohol := if alcohol.length > 0 then some alcohol else none
    unit := if unit.length > 0 then some unit else none
    price := if price.length > 0 then some price else none
    productionType := if productionType.length > 0 then some productionType else none
    producer := none }

/-- `createDefaultFilter` from `wineFilterUtils` (modelled fields only): every
dimension is the empty array. -/
def createDefaultFilter : WineFilter :=
  { grape := some [], country := some [], region := some [], wineType := some []
    color := some [], sweetness := some [], productionType := some []
    unit := some [], alcohol := some [], price := some [] }

/-! ## `referenceDataService.ts` — canonical-name resolution -/

namespace RefData

/-- `ColorReference`: canonical name plus per-language translations
(`Record<string, string>` as an association list). -/
structure ColorReference where
  name : String
  translations : List (String × String)
deriving Repr, DecidableEq

/-- `WineTypeReference`: canonical name plus per-language translations. -/
structure WineTypeReference where
  name : String
  translations : List (String × String)
deriving Repr, DecidableEq

/-- The service's in-memory cache (`this.cache`). -/
structure RefCache where
  wineColors : List ColorReference := []
  wineTypes : List WineTypeReference := []
deriving Repr, DecidableEq

/-- The singleton's mutable state: the cache plus the `initialized` guard
flag (named `ready` here). -/
structure RefServiceState where
  cache : RefCache := {}
  ready : Bool := false
deriving Repr, DecidableEq

/-- The match predicate inside `getWineColorName`: the normalized input equals
the lower-cased canonical name or any lower-cased translation value. -/
def colorMatches (normalized : String) (color : ColorReference) : Bool :=
  jsToLower color.name == normalized ||
    (color.translations.map (fun p => p.2)).any (fun t => jsToLower t == normalized)

/-- `getWineColorName`: convert a translated color label to its canonical
name.  `if (!value) return null`; normalize with `toLowerCase().trim()`;
`find` over the cached colors; `match?.name || null` (an empty canonical name
is falsy and collapses to `null`). -/
def getWineColorName (wineColors : List ColorReference) (value : String) :
    Option String :=
  if value.isEmpty then none
  else
    let normalized := jsTrim (jsToLower value)
    match wineColors.find? (colorMatches normalized) with
    | some m => if m.name.isEmpty then none else some m.name
    | none => none

/-- The match predicate inside `getWineTypeName`. -/
def typeMatches (normalized : String) (type : WineTypeReference) : Bool :=
  jsToLower type.name == normalized ||
    (type.translations.map (fun p => p.2)).any (fun t => jsToLower t == normalized)

/-- `getWineTypeName`: convert a translated wine-type label to its canonical
name. -/
def getWineTypeName (wineTypes : List WineTypeReference) (value : String) :
    Option String :=
  if value.isEmpty then none
  else
    let normalized := jsTrim (jsToLower value)
    match wineTypes.find? (typeMatches normalized) with
    | some m => if m.name.isEmpty then none else some m.name
    | none => none

/-- A row of the `wine_colors` (resp. `wine_types`) reference table. -/
structure RefRow where
  id : String
  name : String
deriving Repr, DecidableEq

/-- A row of the `wine_colors_translations` (resp. `wine_types_translations`)
table: foreign key to the reference row, language code, translated name. -/
structure RefTranslationRow where
  ref_id : String
  language_code : String
  translated_name : String
deriving Repr, DecidableEq

/-- The structured-data construction shared by `loadWineColors` and
`loadWineTypes`: for each reference row, collect its translations into a
record (`reduce` with `acc[t.language_code] = t.translated_name`). -/
def buildReferences (rows : List RefRow) (translations : List RefTranslationRow) :
    List (String × List (String × String)) :=
  rows.map (fun row =>
    (row.name,
      (translations.filter (fun t => t.ref_id == row.id)).foldl
        (fun acc t => jsMapSet acc t.language_code t.translated_name) []))

/-- `loadWineColors`: two sequential fetches (colors, then their
translations); the first error aborts; on success build the structured data.
A `null` data payload with no error is modelled as `.ok []` (the source guards
with `colors || []`). -/
def loadWineColors (colorsRes : Except String (List RefRow))
    (translationsRes : Except String (List RefTranslationRow)) :
    Except String (List ColorReference) :=
  match colorsRes with
  | .error e => .error e
  | .ok colors =>
    match translationsRes with
    | .error e => .error e
    | .ok translations =>
      .ok ((buildReferences colors translations).map
        (fun p => { name := p.1, translations := p.2 }))

/-- `loadWineTypes`: same shape as `loadWineColors`. -/
def loadWineTypes (typesRes : Except String (List RefRow))
    (translationsRes : Except String (List RefTranslationRow)) :
    Except String (List WineTypeReference) :=
  match typesRes with
  | .error e => .error e
  | .ok types =>
    match translationsRes with
    | .error e => .error e
    | .ok translations =>
      .ok ((buildReferences types translations).map
        (fun p => { name := p.1, translations := p.2 }))

/-- The outcomes of the four backing fetches consumed by one `initialize()`
attempt. -/
structure InitFetches where
  colors : Except String (List RefRow)
  colorTranslations : Except String (List RefTranslationRow)
  types : Except String (List RefRow)
  typeTranslations : Except String (List RefTranslationRow)
deriving Repr

/-- One `initialize()` attempt, as its eventual state.  If the guard flag is
set, return immediately.  Otherwise `Promise.all([loadWineColors(),
loadWineTypes()])`: both loads run to completion regardless of the other, and
each one **writes its slice of `this.cache` on its own success** even when the
sibling load fails; the combined promise rejects (and the flag stays unset) if
either load fails.  When both fail, `Promise.all` surfaces whichever rejection
happens first — timing-dependent; modelled as the colors error. -/
def initRefService (st : RefServiceState) (f : InitFetches) :
    RefServiceState × Option String :=
  if st.ready then (st, none)
  else
    let colorsLoad := loadWineColors f.colors f.colorTranslations
    let typesLoad := loadWineTypes f.types f.typeTranslations
    match colorsLoad, typesLoad with
    | .ok cs, .ok ts =>
      ({ cache := { wineColors := cs, wineTypes := ts }, ready := true }, none)
    | .error e, .ok ts =>
      ({ st with cache := { st.cache with wineTypes := ts } }, some e)
    | .ok cs, .error e =>
      ({ st with cache := { st.cache with wineColors := cs } }, some e)
    | .error e, .error _ => (st, some e)

end RefData

/-! ## `services/wineQueries.ts` — query assembly -/

namespace WineQueries

/-- `SUPPORTED_LANGUAGES = ['de', 'en', 'fr', 'it']`. -/
inductive SupportedLanguage
  | de | en | fr | it
deriving Repr, DecidableEq

/-- `DEFAULT_LANGUAGE: SupportedLanguage = 'en'`. -/
def DEFAULT_LANGUAGE : SupportedLanguage := .en

/-- The language code string of a supported language. -/
def langCode (l : SupportedLanguage) : String :=
  match l with
  | .de => "de"
  | .en => "en"
  | .fr => "fr"
  | .it => "it"

/-- Membership test plus cast: `SUPPORTED_LANGUAGES.includes(baseCode)`. -/
def parseSupported (s : String) : Option SupportedLanguage :=
  if s == "de" then some .de
  else if s == "en" then some .en
  else if s == "fr" then some .fr
  else if s == "it" then some .it
  else none

/-- `normalizeLanguageCode` from `wineQueries`: absent (or falsy, i.e. empty)
input falls back to the default; otherwise lower-case, truncate at the first
hyphen, and fall back to the default when the base code is unsupported. -/
def normalizeLanguageCode (languageCode : Option String) : SupportedLanguage :=
  match languageCode with
  | none => DEFAULT_LANGUAGE
  | some code =>
    if code.isEmpty then DEFAULT_LANGUAGE
    else
      let lowerCased := jsToLower code
      let baseCode := jsSplitDashHead lowerCased
      (parseSupported baseCode).getD DEFAULT_LANGUAGE

/-- One row of the `wines_with_core_details` view, restricted to the columns
in `fetchWines`' projection (plus `producer_id`, which the producer filter
predicate references).  Nullable columns are `Option`; JSON translation maps
are association lists; JS numbers are exact rationals. -/
structure WineRow where
  id : String
  reference_id : Option String := none
  default_name : Option String := none
  year : Option Int := none
  image_path : Option String := none
  region_id : Option String := none
  region_name_default : Option String := none
  country_code : Option String := none
  country_name_default : Option String := none
  region_names_by_language : List (String × String) := []
  country_names_by_language : List (String × String) := []
  wine_type : Option String := none
  wine_type_translations : List (String × String) := []
  wine_color : Option String := none
  wine_color_translations : List (String × String) := []
  sweetness_level : Option String := none
  sweetness_level_translations : List (String × String) := []
  alcohol_level : Option String := none
  alcohol_min : Option ℚ := none
  alcohol_max : Option ℚ := none
  alcohol_level_translations : List (String × String) := []
  vinification_method : Option String := none
  vinification_category : Option String := none
  vinification_method_translations : List (String × String) := []
  price_range : Option String := none
  price_min : Option ℚ := none
  price_max : Option ℚ := none
  price_range_translations : List (String × String) := []
  unit_volume : Option ℚ := none
  producer_id : Option String := none
deriving Repr, DecidableEq

/-- One row of the `wine_grapes` join table with its joined `grapes` relation:
only the fields the source reads (`wine_id`, `grapes?.name`).  Both are
nullable as far as the defensive source code is concerned. -/
structure WineGrapeRow where
  wine_id : Option String := none
  grape_name : Option String := none
deriving Repr, DecidableEq

/-- One row of the `user_wine_matches` table (fields read by the selector). -/
structure UserWineMatchRow where
  user_id : String
  wine_id : String
deriving Repr, DecidableEq

/-- The backend: the tables the pipeline reads, plus one failure flag per
network round-trip (a flag set means that query rejects/errors). -/
structure Backend where
  wines : List WineRow := []
  wine_grapes : List WineGrapeRow := []
  user_wine_matches : List UserWineMatchRow := []
  grapeFilterFails : Bool := false
  winesQueryFails : Bool := false
  grapesLoadFails : Bool := false
  ratedLookupFails : Bool := false

/-- A tag in the output `Wine` shape. -/
structure WineTag where
  type : String
  value : String
deriving Repr, DecidableEq

/-- The output `Wine` shape (from `types.ts`), as populated by `fetchWines`. -/
structure Wine where
  id : String
  name : String
  vintage : Option Int
  price : Option ℚ
  region : String
  grape_variety : String
  description : String
  image : String
  image_url : String
  wine_type : String
  body : String
  sweetness : String
  acidity : String
  tannin : String
  alcohol_content : ℚ
  tags : List WineTag
  tagTranslations : List String
deriving Repr, DecidableEq

/-- Rendering of a JS number into a template string.  The exact digit string
JS produces is irrelevant to every verified property (both sides of every
equation use this same function), so the rational's default rendering is
used. -/
def qToString (q : ℚ) : String := toString q

/-- `buildWineTags`: extract each present characteristic column, translating
it via the row's embedded per-language map with fallback to the raw value,
with special numeric formatting for alcohol and price. -/
def buildWineTags (wine : WineRow) (activeLanguage : SupportedLanguage) :
    List WineTag :=
  let lang := langCode activeLanguage
  let tags : List WineTag := []
  let tags := if jsTruthyS wine.wine_type then
      tags ++ [⟨"wineType",
        jsOrString (jsMapGet wine.wine_type_translations lang) (wine.wine_type.getD "")⟩]
    else tags
  let tags := if jsTruthyS wine.wine_color then
      tags ++ [⟨"color",
        jsOrString (jsMapGet wine.wine_color_translations lang) (wine.wine_color.getD "")⟩]
    else tags
  let tags := if jsTruthyS wine.sweetness_level then
      tags ++ [⟨"sweetness",
        jsOrString (jsMapGet wine.sweetness_level_translations lang) (wine.sweetness_level.getD "")⟩]
    else tags
  let tags := if jsTruthyS wine.alcohol_level then
      let value := jsOrString (jsMapGet wine.alcohol_level_translations lang)
        (wine.alcohol_level.getD "")
      let value := if jsTruthyQ wine.alcohol_min && jsTruthyQ wine.alcohol_max then
          qToString (wine.alcohol_min.getD 0) ++ "-" ++ qToString (wine.alcohol_max.getD 0) ++ "%"
        else if jsTruthyQ wine.alcohol_min then
          qToString (wine.alcohol_min.getD 0) ++ "%"
        else value
      tags ++ [⟨"alcohol", value⟩]
    else tags
  let tags := if jsTruthyS wine.vinification_method then
      tags ++ [⟨"productionType",
        jsOrString (jsMapGet wine.vinification_method_translations lang)
          (wine.vinification_method.getD "")⟩]
    else tags
  let tags := if jsTruthyS wine.price_range then
      let value := jsOrString (jsMapGet wine.price_range_translations lang)
        (wine.price_range.getD "")
      let value := if jsTruthyQ wine.price_min && jsTruthyQ wine.price_max then
          "CHF " ++ qToString (wine.price_min.getD 0) ++ "-" ++ qToString (wine.price_max.getD 0)
        else if jsTruthyQ wine.price_min then
          "CHF " ++ qToString (wine.price_min.getD 0)
        else value
      tags ++ [⟨"price", value⟩]
    else tags
  let tags := if jsTruthyQ wine.unit_volume then
      tags ++ [⟨"unit", qToString (wine.unit_volume.getD 0) ++ "L"⟩]
    else tags
  tags

/-- The per-row transformation inside `fetchWines` (the `winesData.map`
body): region-name fallback chain, tag construction, grape attribution, and
JS `||` defaults on every field. -/
def transformWine (wine : WineRow) (activeLanguage : SupportedLanguage)
    (grapes : List String) : Wine :=
  let regionName := jsOrString (jsMapGet wine.region_names_by_language (langCode activeLanguage))
    (jsOrString wine.region_name_default "Unknown Region")
  let tags := buildWineTags wine activeLanguage
  let joined := String.intercalate ", " grapes
  { id := jsOrString wine.reference_id wine.id
    name := jsOrString wine.default_name "Unknown Wine"
    vintage := jsOrIntNull wine.year
    price := jsOrQNull wine.price_min
    region := regionName
    grape_variety := if joined.isEmpty then "Unknown Grape" else joined
    description := ""
    image := jsOrString wine.image_path ""
    image_url := jsOrString wine.image_path ""
    wine_type := jsOrString wine.wine_color "red"
    body := "medium"
    sweetness := jsOrString wine.sweetness_level "dry"
    acidity := "medium"
    tannin := "medium"
    alcohol_content := jsOrQ wine.alcohol_min 0
    tags := tags
    tagTranslations := [] }

/-- `loadGrapesForWines`: batch-load the grape names of the given wine ids
from the `wine_grapes` join table; on query error return the empty map
(grapes are optional); skip rows with a falsy `wine_id` or missing
`grapes?.name`; deduplicate grape names per wine. -/
def loadGrapesForWines (be : Backend) (wineIds : List String) :
    List (String × List String) :=
  if wineIds.length == 0 then []
  else if be.grapesLoadFails then []
  else
    let data := be.wine_grapes.filter (fun row =>
      match row.wine_id with
      | some w => wineIds.contains w
      | none => false)
    if data.length == 0 then []
    else
      data.foldl (fun grapesMap row =>
        if !jsTruthyS row.wine_id || !jsTruthyS row.grape_name then grapesMap
        else
          let wid := row.wine_id.getD ""
          let gname := row.grape_name.getD ""
          let cur := (jsMapGet grapesMap wid).getD []
          if cur.contains gname then grapesMap
          else jsMapSet grapesMap wid (cur ++ [gname])) []

/-- A predicate on view rows; the assembled query is a conjunction of
these. -/
abbrev RowPred := WineRow → Bool

/-- `.in(column, values)` on a nullable string column: SQL membership is
false at `NULL`. -/
def inCond (get : WineRow → Option String) (values : List String) : RowPred :=
  fun r =>
    match get r with
    | some v => values.contains v
    | none => false

/-- `.in(column, values)` on a nullable numeric column. -/
def inCondQ (get : WineRow → Option ℚ) (values : List ℚ) : RowPred :=
  fun r =>
    match get r with
    | some v => values.contains v
    | none => false

/-- `filters.x && filters.x.length > 0`. -/
def presentNonempty {α : Type} (o : Option (List α)) : Bool :=
  match o with
  | some l => l.length > 0
  | none => false

/-- The `"N.NL"` unit-volume parse: regex `^(\d+\.?\d*)` then `parseFloat`
(`null` when the regex fails, i.e. when no leading digit).  `parseFloat` of a
decimal-digit string is modelled exactly as a rational. -/
def parseUnitVolume (u : String) : Option ℚ :=
  let chars := u.toList
  let intPart := chars.takeWhile (fun c => c.isDigit)
  if intPart.isEmpty then none
  else
    let rest := chars.drop intPart.length
    let fracPart :=
      match rest with
      | '.' :: rs => rs.takeWhile (fun c => c.isDigit)
      | _ => []
    let intVal : ℚ := (digitsToNat intPart : ℕ)
    let fracVal : ℚ :=
      if fracPart.isEmpty then 0
      else (digitsToNat fracPart : ℕ) / ((10 : ℚ) ^ fracPart.length)
    some (intVal + fracVal)

/-- The grape-filter round-trip:
`from('wine_grapes').select('wine_id, grapes!inner(name)').in('grapes.name', gs)`
— the inner join drops rows without a joined grape; the membership predicate
keeps rows whose grape name is in the requested list. -/
def grapeFilterQuery (rows : List WineGrapeRow) (grapeNames : List String) :
    List WineGrapeRow :=
  rows.filter (fun wg =>
    match wg.grape_name with
    | some n => grapeNames.contains n
    | none => false)

/-- The deduplicated wine-id set of the grape-filter query
(`[...new Set(wineGrapeData.map(wg => wg.wine_id))]`). -/
def grapeWineIds (rows : List WineGrapeRow) (grapeNames : List String) :
    List (Option String) :=
  jsSetDedup ((grapeFilterQuery rows grapeNames).map (fun wg => wg.wine_id))

/-- Execution tail of `fetchWines`: run the accumulated predicates against the
view, short-circuit on query error (`throw` → outer `catch` → `[]`) and on an
empty row set, batch-load grapes, and transform each row. -/
def execWinesQuery (be : Backend) (activeLanguage : SupportedLanguage)
    (conds : List RowPred) : List Wine :=
  if be.winesQueryFails then []
  else
    let winesData := be.wines.filter (fun r => conds.all (fun c => c r))
    if winesData.length == 0 then []
    else
      let wineIds := (winesData.map (fun w => w.id)).filter (fun s => !s.isEmpty)
      let grapesMap := loadGrapesForWines be wineIds
      winesData.map (fun wine =>
        transformWine wine activeLanguage ((jsMapGet grapesMap wine.id).getD []))

/-- The directly-expressible predicate accumulation of `fetchWines` (the
sequence of `winesQuery = winesQuery.in(...)` statements for every dimension
except grape, in source order), resolving wine-type and color labels to
canonical names through the reference-data service and parsing unit labels to
volumes. -/
def filterConds (ref : RefData.RefCache) (f : DatabaseWineFilter) :
    List RowPred :=
  let conds : List RowPred := []
  let conds := if presentNonempty f.countries then
        conds ++ [inCond (fun r => r.country_code) (f.countries.getD [])]
      else conds
    let conds := if presentNonempty f.regions then
        conds ++ [inCond (fun r => r.region_name_default) (f.regions.getD [])]
      else conds
    let conds := if presentNonempty f.wineType then
        let wineTypeNames :=
          ((f.wineType.getD []).map
            (fun name => RefData.getWineTypeName ref.wineTypes name)).filterMap id
        if wineTypeNames.length > 0 then
          conds ++ [inCond (fun r => r.wine_type) wineTypeNames]
        else conds
      else conds
    let conds := if presentNonempty f.color then
        let colorNames :=
          ((f.color.getD []).map
            (fun name => RefData.getWineColorName ref.wineColors name)).filterMap id
        if colorNames.length > 0 then
          conds ++ [inCond (fun r => r.wine_color) colorNames]
        else conds
      else conds
    let conds := if presentNonempty f.sweetness then
        conds ++ [inCond (fun r => r.sweetness_level) (f.sweetness.getD [])]
      else conds
    let conds := if presentNonempty f.alcohol then
        conds ++ [inCond (fun r => r.alcohol_level) (f.alcohol.getD [])]
      else conds
    let conds := if presentNonempty f.productionType then
        conds ++ [inCond (fun r => r.vinification_method) (f.productionType.getD [])]
      else conds
    let conds := if presentNonempty f.price then
        conds ++ [inCond (fun r => r.price_range) (f.price.getD [])]
      else conds
    let conds := if presentNonempty f.unit then
        let unitVolumes := ((f.unit.getD []).map parseUnitVolume).filterMap id
        if unitVolumes.length > 0 then
          conds ++ [inCondQ (fun r => r.unit_volume) unitVolumes]
        else conds
      else conds
    let conds := if presentNonempty f.producer then
        conds ++ [inCond (fun r => r.producer_id) (f.producer.getD [])]
      else conds
    conds

/-- `fetchWines`: normalize the language, accumulate one membership predicate
per present filter dimension (`filterConds`), run the separate grape-filter
query (error → proceed without a grape restriction; zero matches → return
`[]`; otherwise add an id-inclusion predicate), then execute and transform. -/
def fetchWines (be : Backend) (ref : RefData.RefCache)
    (filters : Option DatabaseWineFilter) (languageCode : Option String) :
    List Wine :=
  let activeLanguage := normalizeLanguageCode languageCode
  match filters with
  | none => execWinesQuery be activeLanguage []
  | some f =>
    let conds := filterConds ref f
    if presentNonempty f.grape then
      if be.grapeFilterFails then
        execWinesQuery be activeLanguage conds
      else
        let wineGrapeData := grapeFilterQuery be.wine_grapes (f.grape.getD [])
        if wineGrapeData.length > 0 then
          let wineIdsWithGrapes := jsSetDedup (wineGrapeData.map (fun wg => wg.wine_id))
          execWinesQuery be activeLanguage
            (conds ++ [fun r => wineIdsWithGrapes.contains (some r.id)])
        else []
    else execWinesQuery be activeLanguage conds

end WineQueries

/-! ## `userPreferenceService.ts` — unrated-wine selection -/

namespace UserPrefs

open WineQueries

/-- The rated-wine-id projection inside `getUnratedWinesWithFilters`:
`from('user_wine_matches').select('wine_id').eq('user_id', userId)` followed
by `map(r => r.wine_id)`. -/
def ratedIdsOf (be : Backend) (userId : String) : List String :=
  (be.user_wine_matches.filter (fun m => m.user_id == userId)).map
    (fun m => m.wine_id)

/-- `getUnratedWinesWithFilters`: fetch the filtered listing (note: no
language argument is forwarded), load the user's rated wine ids (on error,
return the unfiltered listing truncated to `limit`), drop rated wines, and
truncate to `limit`. -/
def getUnratedWinesWithFilters (be : Backend) (ref : RefData.RefCache)
    (userId : String) (filters : Option DatabaseWineFilter) (limit : Nat) :
    List Wine :=
  let allWines := fetchWines be ref filters none
  if be.ratedLookupFails then allWines.take limit
  else
    let ratedWineIds := ratedIdsOf be userId
    let unratedWines := allWines.filter (fun wine => !ratedWineIds.contains wine.id)
    unratedWines.take limit

end UserPrefs

/-! ## `filterOptionsApi.ts` — TTL option cache -/

namespace FilterOptions

/-- `CACHE_TTL = 5 * 60 * 1000` (milliseconds). -/
def CACHE_TTL : Int := 5 * 60 * 1000

/-- The module-level mutable cache: `filterOptionsCache` and
`cacheTimestamps`, both JS `Map`s.  Cached values in this development are the
string option lists. -/
structure CacheState where
  values : List (String × List String) := []
  timestamps : List (String × Int) := []
deriving Repr, DecidableEq

/-- `shouldUseCache`: a key is live iff it has a timestamp and
`Date.now() - timestamp < CACHE_TTL`.  `now` is the current clock reading. -/
def shouldUseCache (st : CacheState) (now : Int) (cacheKey : String) : Bool :=
  match jsMapGet st.timestamps cacheKey with
  | none => false
  | some timestamp => now - timestamp < CACHE_TTL

/-- `setCacheValue`: store the value and stamp the key with the current
time. -/
def setCacheValue (st : CacheState) (now : Int) (cacheKey : String)
    (value : List String) : CacheState :=
  { values := jsMapSet st.values cacheKey value
    timestamps := jsMapSet st.timestamps cacheKey now }

/-- `getCacheValue`: serve the stored value only when the key is live,
otherwise `null`. -/
def getCacheValue (st : CacheState) (now : Int) (cacheKey : String) :
    Option (List String) :=
  if shouldUseCache st now cacheKey then jsMapGet st.values cacheKey
  else none

/-- `normalizeLanguageCode` from `filterOptionsApi` (distinct from the
`wineQueries` one: the default and the fallback are both `'de'`). -/
def normalizeLanguageCode (languageCode : String) : String :=
  let supportedLanguages := ["de", "en", "fr", "it"]
  let baseCode := jsSplitDashHead (jsToLower languageCode)
  if supportedLanguages.contains baseCode then baseCode else "de"

/-- The `colors?.map((c) => c.translated_name).filter(Boolean)` step of
`fetchColorOptions` on the query rows (each row is the nullable
`translated_name`): keep the truthy names. -/
def collectColorValues (colors : List (Option String)) : List String :=
  colors.filterMap (fun tn =>
    match tn with
    | some s => if s.isEmpty then none else some s
    | none => none)

/-- `fetchColorOptions`: look up `colors_<lang>` in the cache; on a live entry
return it without issuing the query.  Otherwise run the
`wine_colors_translations` query (`queryRes` is its outcome; each row is the
nullable `translated_name`), keep truthy names (`filter(Boolean)`),
deduplicate, throw when the result is empty, else store and return.  The
returned triple is (result, new cache state, whether the query was issued). -/
def fetchColorOptions (st : CacheState) (now : Int)
    (queryRes : Except String (List (Option String))) (languageCode : String) :
    Except String (List String) × CacheState × Bool :=
  let normalizedLanguage := normalizeLanguageCode languageCode
  let cacheKey := "colors_" ++ normalizedLanguage
  match getCacheValue st now cacheKey with
  | some cached => (.ok cached, st, false)
  | none =>
    match queryRes with
    | .error e => (.error e, st, true)
    | .ok colors =>
      let colorValues := collectColorValues colors
      let uniqueColors := jsSetDedup colorValues
      if uniqueColors.length == 0 then
        (.error ("No color options found in database for language " ++ normalizedLanguage),
          st, true)
      else
        (.ok uniqueColors, setCacheValue st now cacheKey uniqueColors, true)

end FilterOptions

/-! ## Concrete scenario fixtures (used in counterexamples and witnesses) -/

namespace Fixtures

open RefData WineQueries

/-- The color entry of the spec's scenarios: canonical `"red"` with German
`"Rot"` and English `"Red"`. -/
def redColorRef : ColorReference :=
  { name := "red", translations := [("de", "Rot"), ("en", "Red")] }

/-- A resolver cache holding exactly the `red ↔ Rot/Red` entry. -/
def c1RefCache : RefCache := { wineColors := [redColorRef] }

/-- A view row whose `wine_color` is `"red"`. -/
def redWineRow : WineRow := { id := "w-red", wine_color := some "red" }

/-- A view row whose `wine_color` is `"white"`. -/
def whiteWineRow : WineRow := { id := "w-white", wine_color := some "white" }

/-- Backend with one red and one white wine. -/
def c1Backend : Backend := { wines := [redWineRow, whiteWineRow] }

/-- The spec scenario's selection `{color: ["Rot"], grape: []}`. -/
def c1Selection : WineFilter := { color := some [some "Rot"], grape := some [] }

/-- Backend whose grape join-table links `w1` to Merlot only. -/
def c3Backend : Backend :=
  { wine_grapes := [{ wine_id := some "w1", grape_name := some "Merlot" }] }

/-- A backend filter requesting the grape `"Syrah"` (matching no wine). -/
def syrahFilter : DatabaseWineFilter := { grape := some ["Syrah"] }

/-- A non-trivial wines table for the C3 witness. -/
def c3Wines : List WineRow := [{ id := "w1" }, { id := "w2" }]

/-- Backend whose grape-filter round-trip errors. -/
def c4Backend : Backend :=
  { wines := [redWineRow, whiteWineRow], grapeFilterFails := true }

/-- A filter with both a grape dimension and another dimension. -/
def c4Filter : DatabaseWineFilter :=
  { grape := some ["Merlot"], countries := some ["FR"] }

/-- The i-th demo wine row, id `w<i>`. -/
def demoRow (i : Nat) : WineRow := { id := "w" ++ toString i }

/-- The i-th rated-wine entry of user `u1`. -/
def demoMatch (i : Nat) : UserWineMatchRow :=
  { user_id := "u1", wine_id := "w" ++ toString i }

/-- Backend with 15 wines of which user `u1` has rated the first 5. -/
def c5Backend : Backend :=
  { wines := (List.range 15).map demoRow
    user_wine_matches := (List.range 5).map demoMatch }

/-- Same backend but with the rated-set lookup failing. -/
def c5FailBackend : Backend := { c5Backend with ratedLookupFails := true }

/-- Backend whose primary listing query errors. -/
def c6QueryFailBe : Backend := { wines := [redWineRow], winesQueryFails := true }

/-- Backend with grape data whose batch grape-name lookup errors. -/
def c6GrapesFailBe : Backend :=
  { wines := [redWineRow]
    wine_grapes := [{ wine_id := some "w-red", grape_name := some "Merlot" }]
    grapesLoadFails := true }

/-- Fetch outcomes where the colors load succeeds and the types load fails. -/
def c7Fetches : InitFetches :=
  { colors := .ok [{ id := "c1", name := "red" }]
    colorTranslations := .ok [{ ref_id := "c1", language_code := "de", translated_name := "Rot" }]
    types := .error "network failure"
    typeTranslations := .ok [] }

/-- Fully successful fetch outcomes, for the retry scenario. -/
def c7GoodFetches : InitFetches :=
  { colors := .ok [{ id := "c1", name := "red" }]
    colorTranslations := .ok [{ ref_id := "c1", language_code := "de", translated_name := "Rot" }]
    types := .ok [{ id := "t1", name := "still wine" }]
    typeTranslations := .ok [{ ref_id := "t1", language_code := "de", translated_name := "Stillwein" }] }

end Fixtures

/-- The hypothesis of the empty-selection law: every dimension's string array
of the selection is empty. -/
def allDimensionsEmpty (f : WineFilter) : Prop :=
  f.grape.getD [] = [] ∧ f.country.getD [] = [] ∧ f.region.getD [] = [] ∧
  f.wineType.getD [] = [] ∧ f.color.getD [] = [] ∧ f.sweetness.getD [] = [] ∧
  f.productionType.getD [] = [] ∧ f.unit.getD [] = [] ∧ f.alcohol.getD [] = [] ∧
  f.price.getD [] = []

/-! ## Helper lemmas -/

open WineQueries

theorem jsMapGet_cons {α : Type} (p : String × α) (rest : List (String × α))
    (k : String) :
    jsMapGet (p :: rest) k
      = if p.1 == k then some p.2 else jsMapGet rest k := by
  unfold jsMapGet
  rw [List.find?_cons]
  cases hp : (p.1 == k) with
  | true => simp [hp]
  | false => simp [hp]

theorem jsMapGet_jsMapSet_self {α : Type} (k : String) (v : α) :
    ∀ (m : List (String × α)), jsMapGet (jsMapSet m k v) k = some v := by
  intro m
  induction m with
  | nil =>
    simp [jsMapGet, jsMapSet, List.find?]
  | cons p t ih =>
    by_cases hp : (p.1 == k) = true
    · have hany : ((p :: t).any fun q => q.1 == k) = true := by
        simp [List.any_cons, hp]
      unfold jsMapSet
      rw [if_pos hany, List.map_cons, if_pos hp, jsMapGet_cons]
      simp
    · have hbeq : (p.1 == k) = false := by
        cases hh : (p.1 == k) with
        | false => rfl
        | true => exact absurd hh hp
      unfold jsMapSet
      simp only [List.any_cons, hbeq, Bool.false_or]
      by_cases ha : (t.any fun q => q.1 == k) = true
      · rw [if_pos ha, List.map_cons, if_neg hp, jsMapGet_cons, hbeq]
        have hset : jsMapSet t k v
            = t.map (fun q => if q.1 == k then (k, v) else q) := by
          unfold jsMapSet
          rw [if_pos ha]
        rw [← hset] at *
        simpa using ih
      · rw [if_neg ha, List.cons_append, jsMapGet_cons, hbeq]
        have hset : jsMapSet t k v = t ++ [(k, v)] := by
          unfold jsMapSet
          rw [if_neg ha]
        rw [← hset] at *
        simpa using ih

/-! ## Claim theorems -/

/-- **C10.** Sanitization removes null and blank entries, trims the rest, and
preserves relative order: the concrete law
`sanitize(["", " a ", null, "b"]) == ["a", "b"]`, every output element is the
trim of some non-blank input element, and sanitization distributes over
append (hence preserves relative order). -/
theorem sanitizeStringList_spec :
    sanitizeStringList [some "", some " a ", none, some "b"] = ["a", "b"] ∧
    (∀ (l : List (Option String)) (s : String), s ∈ sanitizeStringList l →
      ∃ t, some t ∈ l ∧ s = jsTrim t ∧ jsTrim t ≠ "") ∧
    (∀ l₁ l₂ : List (Option String),
      sanitizeStringList (l₁ ++ l₂) = sanitizeStringList l₁ ++ sanitizeStringList l₂) := by
  refine ⟨by decide, ?_, ?_⟩
  · intro l s hs
    unfold sanitizeStringList at hs
    obtain ⟨item, hitem, rfl⟩ := List.mem_map.mp hs
    obtain ⟨hmem, hpred⟩ := List.mem_filter.mp hitem
    cases item with
    | none => simp at hpred
    | some t =>
      have hpred' : (!(jsTrim t).isEmpty) = true := hpred
      refine ⟨t, hmem, rfl, ?_⟩
      intro hemp
      rw [hemp] at hpred'
      exact absurd hpred' (by decide)
  · intro l₁ l₂
    unfold sanitizeStringList
    rw [List.filter_append, List.map_append]

/-- Witness for C10: the membership characterization applied at the concrete
input `[" a "]` and output element `"a"`. -/
theorem sanitizeStringList_spec_witness :
    ∃ t, some t ∈ [some " a "] ∧ "a" = jsTrim t ∧ jsTrim t ≠ "" :=
  sanitizeStringList_spec.2.1 [some " a "] "a" (by decide)

/-- **C8.** Resolver lookup normalizes (lower-case + trim) and matches
case-insensitively against the canonical name or any translation: with the
entry `{red, {de: Rot, en: Red}}`, `"rot"`, `"RED"`, `"red"` and `"  RoT  "`
all resolve to `"red"`; `"blau"` resolves to not-found; and in general any
label matching no entry yields `none` (the lookup is a total function — it
never throws). -/
theorem getWineColorName_spec :
    RefData.getWineColorName [Fixtures.redColorRef] "rot" = some "red" ∧
    RefData.getWineColorName [Fixtures.redColorRef] "RED" = some "red" ∧
    RefData.getWineColorName [Fixtures.redColorRef] "red" = some "red" ∧
    RefData.getWineColorName [Fixtures.redColorRef] "  RoT  " = some "red" ∧
    RefData.getWineColorName [Fixtures.redColorRef] "blau" = none ∧
    (∀ (cache : List RefData.ColorReference) (value : String),
      (∀ c ∈ cache, RefData.colorMatches (jsTrim (jsToLower value)) c = false) →
      RefData.getWineColorName cache value = none) := by
  refine ⟨by decide, by decide, by decide, by decide, by decide, ?_⟩
  intro cache value h
  unfold RefData.getWineColorName
  by_cases hv : value.isEmpty = true
  · rw [if_pos hv]
  · rw [if_neg hv]
    have hnone : cache.find? (RefData.colorMatches (jsTrim (jsToLower value))) = none :=
      List.find?_eq_none.mpr (fun c hc => by simp [h c hc])
    simp [hnone]

/-- Witness for C8: the general not-found clause applied at the concrete
cache and the unmatched label `"blau"`. -/
theorem getWineColorName_spec_witness :
    RefData.getWineColorName [Fixtures.redColorRef] "blau" = none :=
  getWineColorName_spec.2.2.2.2.2 [Fixtures.redColorRef] "blau" (by decide)

/-- **C1, counterexample.** The claim says `convertToDBFilter` on
`{color: ["Rot"], grape: []}` produces `{color: ["red"]}`.  It does not: the
translation step only sanitizes — the canonical value appears nowhere in its
output, which carries the raw label `["Rot"]`. -/
theorem convertToDBFilter_no_canonicalization :
    (convertToDBFilter Fixtures.c1Selection).color = some ["Rot"] ∧
    (convertToDBFilter Fixtures.c1Selection).color ≠ some ["red"] := by
  decide

/-- **C1, amended.** `convertToDBFilter` on `{color: ["Rot"], grape: []}`
produces the backend filter `{color: ["Rot"]}` (sanitization only); the
resolver-based conversion of `"Rot"` to canonical `"red"` happens inside
`fetchWines` when the query is assembled, so with a resolver index containing
`red ↔ Rot` the assembled query includes the wine row whose `wine_color` is
`"red"` and excludes the one whose `wine_color` is `"white"`. -/
theorem fetchWines_color_scenario :
    convertToDBFilter Fixtures.c1Selection = { color := some ["Rot"] } ∧
    (fetchWines Fixtures.c1Backend Fixtures.c1RefCache
        (some (convertToDBFilter Fixtures.c1Selection)) (some "de")).map
      (fun w => w.id) = ["w-red"] := by
  decide

/-- **C2.** For every selection whose dimensions are all empty,
`convertToDBFilter` yields the backend filter with no keys present, and
`fetchWines` on that empty filter coincides with `fetchWines` with no filter
argument, for every backend, resolver state and language. -/
theorem emptyFilter_is_noFilter (f : WineFilter) (h : allDimensionsEmpty f)
    (be : Backend) (ref : RefData.RefCache) (lang : Option String) :
    convertToDBFilter f = {} ∧
    fetchWines be ref (some (convertToDBFilter f)) lang
      = fetchWines be ref none lang := by
  obtain ⟨h1, h2, h3, h4, h5, h6, h7, h8, h9, h10⟩ := h
  have hconv : convertToDBFilter f = {} := by
    unfold convertToDBFilter
    rw [h1, h2, h3, h4, h5, h6, h7, h8, h9, h10]
    rfl
  refine ⟨hconv, ?_⟩
  rw [hconv]
  rfl

/-- Witness for C2: the default (all-empty) selection, a concrete backend,
the empty resolver cache and no language. -/
theorem emptyFilter_is_noFilter_witness :
    convertToDBFilter createDefaultFilter = {} ∧
    fetchWines Fixtures.c1Backend {} (some (convertToDBFilter createDefaultFilter)) none
      = fetchWines Fixtures.c1Backend {} none none :=
  emptyFilter_is_noFilter createDefaultFilter
    ⟨rfl, rfl, rfl, rfl, rfl, rfl, rfl, rfl, rfl, rfl⟩ Fixtures.c1Backend {} none

theorem mem_execWinesQuery {be : Backend} {lang : SupportedLanguage}
    {conds : List RowPred} {w : Wine} (hw : w ∈ execWinesQuery be lang conds) :
    ∃ row ∈ be.wines, conds.all (fun c => c row) = true ∧
      ∃ g, w = transformWine row lang g := by
  unfold execWinesQuery at hw
  by_cases hq : be.winesQueryFails = true
  · rw [if_pos hq] at hw
    exact absurd hw (List.not_mem_nil w)
  · rw [if_neg hq] at hw
    by_cases hlen :
        (((be.wines.filter (fun r => conds.all (fun c => c r))).length == 0) = true)
    · rw [if_pos hlen] at hw
      exact absurd hw (List.not_mem_nil w)
    · rw [if_neg hlen] at hw
      obtain ⟨row, hrow, hweq⟩ := List.mem_map.mp hw
      obtain ⟨hmem, hall⟩ := List.mem_filter.mp hrow
      exact ⟨row, hmem, hall, _, hweq.symm⟩

/-- **C3.** With a non-empty grape list and a successful grape join-table
query: if the query yields no matching wine identifiers, `fetchWines` returns
`[]` no matter what the wine view holds and no matter whether the base query
would even succeed (it is never executed and never falls through to an
unconstrained listing); if it yields a non-empty identifier set, every
returned wine stems from a view row whose identifier lies in that set. -/
theorem grape_filter_restricts (be : Backend) (ref : RefData.RefCache)
    (f : DatabaseWineFilter) (lang : Option String) (gs : List String)
    (hg : f.grape = some gs) (hne : gs ≠ [])
    (hok : be.grapeFilterFails = false) :
    (grapeFilterQuery be.wine_grapes gs = [] →
      ∀ (wines' : List WineRow) (wq : Bool),
        fetchWines { be with wines := wines', winesQueryFails := wq } ref
          (some f) lang = []) ∧
    (∀ w ∈ fetchWines be ref (some f) lang,
      ∃ row ∈ be.wines,
        (jsSetDedup ((grapeFilterQuery be.wine_grapes gs).map
          (fun wg => wg.wine_id))).contains (some row.id) = true ∧
        w.id = jsOrString row.reference_id row.id) := by
  have hlen : gs.length > 0 := List.length_pos.mpr hne
  have hpres : presentNonempty (some gs) = true := by
    simp [presentNonempty, hlen]
  constructor
  · intro hempty wines' wq
    simp [fetchWines, hg, hpres, hok, hempty]
  · intro w hw
    by_cases hempty : grapeFilterQuery be.wine_grapes gs = []
    · exfalso
      revert hw
      simp [fetchWines, hg, hpres, hok, hempty]
    · have hqlen : (grapeFilterQuery be.wine_grapes gs).length > 0 :=
        List.length_pos.mpr hempty
      have hfw : fetchWines be ref (some f) lang
          = execWinesQuery be (normalizeLanguageCode lang)
              (filterConds ref f
                ++ [fun r => (jsSetDedup ((grapeFilterQuery be.wine_grapes gs).map
                      (fun wg => wg.wine_id))).contains (some r.id)]) := by
        simp [fetchWines, hg, hpres, hok, hqlen]
      rw [hfw] at hw
      obtain ⟨row, hrow, hall, g, hweq⟩ := mem_execWinesQuery hw
      refine ⟨row, hrow, ?_, ?_⟩
      · rw [List.all_append] at hall
        simp only [Bool.and_eq_true, List.all_cons, List.all_nil,
          Bool.and_true] at hall
        exact hall.2
      · rw [hweq]
        rfl

/-- Witness for C3: the zero-match clause at the Syrah filter over a backend
whose join table only links Merlot, with a non-trivial wines table. -/
theorem grape_filter_restricts_witness :
    fetchWines { Fixtures.c3Backend with wines := Fixtures.c3Wines, winesQueryFails := false }
      {} (some Fixtures.syrahFilter) none = [] :=
  (grape_filter_restricts Fixtures.c3Backend {} Fixtures.syrahFilter none
    ["Syrah"] rfl (by decide) rfl).1 (by decide) Fixtures.c3Wines false

/-- **C4.** With a non-empty grape list, if the grape join-table query itself
errors, `fetchWines` proceeds with no grape restriction at all: the result is
exactly the listing obtained from the same filter with the grape dimension
removed. -/
theorem grape_lookup_error_ignores_grape (be : Backend) (ref : RefData.RefCache)
    (f : DatabaseWineFilter) (lang : Option String) (gs : List String)
    (hg : f.grape = some gs) (hne : gs ≠ [])
    (hfail : be.grapeFilterFails = true) :
    fetchWines be ref (some f) lang
      = fetchWines be ref (some { f with grape := none }) lang := by
  have hpres : presentNonempty (some gs) = true := by
    simp [presentNonempty, List.length_pos.mpr hne]
  have hconds : filterConds ref { f with grape := none } = filterConds ref f := rfl
  simp [fetchWines, hg, hpres, hfail, presentNonempty, hconds]

/-- Witness for C4: a failing grape lookup combined with a country filter. -/
theorem grape_lookup_error_ignores_grape_witness :
    fetchWines Fixtures.c4Backend {} (some Fixtures.c4Filter) none
      = fetchWines Fixtures.c4Backend {} (some { Fixtures.c4Filter with grape := none }) none :=
  grape_lookup_error_ignores_grape Fixtures.c4Backend {} Fixtures.c4Filter none
    ["Merlot"] rfl (by decide) rfl

/-- **C5.** `getUnratedWinesWithFilters` fetches the filtered listing, removes
every wine whose identifier is in the user's rated set, and truncates to
`limit`; no returned wine is in the rated set.  If the rated-set lookup
fails, it instead returns the filtered listing truncated to `limit`. -/
theorem getUnrated_spec (be : Backend) (ref : RefData.RefCache)
    (userId : String) (filters : Option DatabaseWineFilter) (limit : Nat) :
    (be.ratedLookupFails = true →
      UserPrefs.getUnratedWinesWithFilters be ref userId filters limit
        = (fetchWines be ref filters none).take limit) ∧
    (be.ratedLookupFails = false →
      UserPrefs.getUnratedWinesWithFilters be ref userId filters limit
        = ((fetchWines be ref filters none).filter
            (fun w => !(UserPrefs.ratedIdsOf be userId).contains w.id)).take limit ∧
      ∀ w ∈ UserPrefs.getUnratedWinesWithFilters be ref userId filters limit,
        (UserPrefs.ratedIdsOf be userId).contains w.id = false) := by
  constructor
  · intro h
    simp [UserPrefs.getUnratedWinesWithFilters, h]
  · intro h
    have heq : UserPrefs.getUnratedWinesWithFilters be ref userId filters limit
        = ((fetchWines be ref filters none).filter
            (fun w => !(UserPrefs.ratedIdsOf be userId).contains w.id)).take limit := by
      simp [UserPrefs.getUnratedWinesWithFilters, h]
    refine ⟨heq, ?_⟩
    intro w hw
    rw [heq] at hw
    have hw' := List.mem_filter.mp (List.take_subset _ _ hw)
    simpa using hw'.2

/-- Witness for C5: 15 matching wines, 5 rated by the user, limit 10 — the
result has exactly 10 wines and none of them is rated; and with the rated-set
lookup failing, the result is the listing truncated to 10. -/
theorem getUnrated_spec_witness :
    (UserPrefs.getUnratedWinesWithFilters Fixtures.c5Backend {} "u1" none 10).length = 10 ∧
    (∀ w ∈ UserPrefs.getUnratedWinesWithFilters Fixtures.c5Backend {} "u1" none 10,
      (UserPrefs.ratedIdsOf Fixtures.c5Backend "u1").contains w.id = false) ∧
    UserPrefs.getUnratedWinesWithFilters Fixtures.c5FailBackend {} "u1" none 10
      = (fetchWines Fixtures.c5FailBackend {} none none).take 10 := by
  refine ⟨by decide, ?_, ?_⟩
  · exact ((getUnrated_spec Fixtures.c5Backend {} "u1" none 10).2 rfl).2
  · exact (getUnrated_spec Fixtures.c5FailBackend {} "u1" none 10).1 rfl

theorem loadGrapesForWines_fails (be : Backend) (h : be.grapesLoadFails = true)
    (wineIds : List String) : loadGrapesForWines be wineIds = [] := by
  unfold loadGrapesForWines
  by_cases h0 : ((wineIds.length == 0) = true)
  · rw [if_pos h0]
  · rw [if_neg h0, if_pos h]

theorem transformWine_grapes_irrel (r : WineRow) (lang : SupportedLanguage)
    (g : List String) :
    transformWine r lang []
      = { transformWine r lang g with grape_variety := "Unknown Grape" } := rfl

theorem execWinesQuery_grapesLoadFails (be : Backend) (lang : SupportedLanguage)
    (conds : List RowPred) (h : be.grapesLoadFails = true) :
    execWinesQuery be lang conds
      = (execWinesQuery { be with grapesLoadFails := false } lang conds).map
          (fun w => { w with grape_variety := "Unknown Grape" }) := by
  unfold execWinesQuery
  by_cases hq : be.winesQueryFails = true
  · rw [if_pos hq,
      if_pos (show ({ be with grapesLoadFails := false } : Backend).winesQueryFails = true from hq)]
    rfl
  · rw [if_neg hq,
      if_neg (show ¬({ be with grapesLoadFails := false } : Backend).winesQueryFails = true from hq)]
    by_cases hlen :
        (((be.wines.filter (fun r => conds.all (fun c => c r))).length == 0) = true)
    · rw [if_pos hlen, if_pos hlen]
      rfl
    · rw [if_neg hlen, if_neg hlen]
      have hw : ({ be with grapesLoadFails := false } : Backend).wines = be.wines := rfl
      simp only [hw, loadGrapesForWines_fails be h, List.map_map]
      refine List.map_congr_left ?_
      intro row hrow
      simpa using transformWine_grapes_irrel row lang
        ((jsMapGet (loadGrapesForWines { be with grapesLoadFails := false }
          (((be.wines.filter (fun r => conds.all (fun c => c r))).map
            (fun w => w.id)).filter (fun s => !s.isEmpty))) row.id).getD [])

/-- **C6.** If the primary listing query errors, `fetchWines` returns the
empty list (it never throws and never returns partial data); independently,
if the batch grape-name lookup errors, the lookup yields the empty map and
the listing is still returned with every wine carrying the empty grape
attribution (each wine equals its normal transform with the empty grape
list). -/
theorem fetchWines_failure_semantics (be : Backend) (ref : RefData.RefCache)
    (filters : Option DatabaseWineFilter) (lang : Option String) :
    (be.winesQueryFails = true → fetchWines be ref filters lang = []) ∧
    (be.grapesLoadFails = true →
      (∀ wineIds, loadGrapesForWines be wineIds = []) ∧
      fetchWines be ref filters lang
        = (fetchWines { be with grapesLoadFails := false } ref filters lang).map
            (fun w => { w with grape_variety := "Unknown Grape" })) := by
  constructor
  · intro hq
    have hexec : ∀ conds, execWinesQuery be (normalizeLanguageCode lang) conds = [] := by
      intro conds
      unfold execWinesQuery
      rw [if_pos hq]
    cases filters with
    | none => exact hexec []
    | some f =>
      simp only [fetchWines]
      split
      · split
        · exact hexec _
        · split
          · exact hexec _
          · rfl
      · exact hexec _
  · intro hgl
    refine ⟨loadGrapesForWines_fails be hgl, ?_⟩
    have h3 : ({ be with grapesLoadFails := false } : Backend).grapeFilterFails
        = be.grapeFilterFails := rfl
    have h4 : ({ be with grapesLoadFails := false } : Backend).wine_grapes
        = be.wine_grapes := rfl
    cases filters with
    | none => exact execWinesQuery_grapesLoadFails be _ [] hgl
    | some f =>
      simp only [fetchWines, h3, h4]
      split
      · split
        · exact execWinesQuery_grapesLoadFails be _ _ hgl
        · split
          · exact execWinesQuery_grapesLoadFails be _ _ hgl
          · rfl
      · exact execWinesQuery_grapesLoadFails be _ _ hgl

/-- Witness for C6: a failing primary query yields `[]`; a failing grape
lookup yields the same listing as the healthy backend with every grape
attribution emptied. -/
theorem fetchWines_failure_semantics_witness :
    fetchWines Fixtures.c6QueryFailBe {} none none = [] ∧
    fetchWines Fixtures.c6GrapesFailBe {} none none
      = (fetchWines { Fixtures.c6GrapesFailBe with grapesLoadFails := false } {} none none).map
          (fun w => { w with grape_variety := "Unknown Grape" }) :=
  ⟨(fetchWines_failure_semantics Fixtures.c6QueryFailBe {} none none).1 rfl,
   ((fetchWines_failure_semantics Fixtures.c6GrapesFailBe {} none none).2 rfl).2⟩

/-- **C7, counterexample.** The claim says a failed initialization leaves the
resolver with no partial state ("either fully populated or empty").  It can:
when the colors load succeeds and the types load fails, the error does
propagate and the guard flag stays unset, but the wine-colors slice of the
cache is left populated while the wine-types slice is empty — a partial
index. -/
theorem initRefService_partial_state :
    ((RefData.initRefService {} Fixtures.c7Fetches).2).isSome = true ∧
    (RefData.initRefService {} Fixtures.c7Fetches).1.ready = false ∧
    (RefData.initRefService {} Fixtures.c7Fetches).1.cache.wineColors ≠ [] ∧
    (RefData.initRefService {} Fixtures.c7Fetches).1.cache.wineTypes = [] := by
  decide

/-- **C7, amended.** If initialization fails, the error propagates and the
guard flag remains unset, so a subsequent call retries the work (and a
successful retry fully populates both slices and sets the flag); a successful
initialization leaves the index exactly as built from the fetches.  However a
failure does **not** guarantee the absence of partial state: each dimension's
cache slice is written whenever its own load succeeds, even when the sibling
load fails. -/
theorem initRefService_failure_spec (st : RefData.RefServiceState)
    (f : RefData.InitFetches) (h : st.ready = false) :
    ((RefData.initRefService st f).2.isSome = true →
      (RefData.initRefService st f).1.ready = false) ∧
    ((RefData.initRefService st f).2 = none →
      ∃ cs ts, RefData.loadWineColors f.colors f.colorTranslations = .ok cs ∧
        RefData.loadWineTypes f.types f.typeTranslations = .ok ts ∧
        (RefData.initRefService st f).1
          = { cache := { wineColors := cs, wineTypes := ts }, ready := true }) ∧
    ((RefData.initRefService st f).2.isSome = true →
      ∀ (f2 : RefData.InitFetches) cs ts,
        RefData.loadWineColors f2.colors f2.colorTranslations = .ok cs →
        RefData.loadWineTypes f2.types f2.typeTranslations = .ok ts →
        RefData.initRefService (RefData.initRefService st f).1 f2
          = ({ cache := { wineColors := cs, wineTypes := ts }, ready := true }, none)) := by
  have hnr : ¬st.ready = true := by
    rw [h]
    exact Bool.false_ne_true
  have hretry : ∀ (st' : RefData.RefServiceState), st'.ready = false →
      ∀ (f2 : RefData.InitFetches) cs ts,
        RefData.loadWineColors f2.colors f2.colorTranslations = .ok cs →
        RefData.loadWineTypes f2.types f2.typeTranslations = .ok ts →
        RefData.initRefService st' f2
          = ({ cache := { wineColors := cs, wineTypes := ts }, ready := true }, none) := by
    intro st' h' f2 cs ts hc2 ht2
    unfold RefData.initRefService
    rw [if_neg (by rw [h']; exact Bool.false_ne_true), hc2, ht2]
  unfold RefData.initRefService
  rw [if_neg hnr]
  rcases hc : RefData.loadWineColors f.colors f.colorTranslations with e | cs₀ <;>
    rcases ht : RefData.loadWineTypes f.types f.typeTranslations with e' | ts₀
  · exact ⟨fun _ => h, fun hn => by simp at hn,
      fun _ => hretry st h⟩
  · exact ⟨fun _ => h, fun hn => by simp at hn,
      fun _ => hretry _ h⟩
  · exact ⟨fun _ => h, fun hn => by simp at hn,
      fun _ => hretry _ h⟩
  · refine ⟨fun hs => by simp at hs, fun _ => ⟨cs₀, ts₀, rfl, rfl, rfl⟩,
      fun hs => by simp at hs⟩

/-- Witness for C7: the concrete colors-succeed/types-fail attempt followed by
an all-successful retry. -/
theorem initRefService_failure_spec_witness :
    (RefData.initRefService {} Fixtures.c7Fetches).1.ready = false ∧
    RefData.initRefService (RefData.initRefService {} Fixtures.c7Fetches).1
        Fixtures.c7GoodFetches
      = ({ cache := { wineColors := [{ name := "red", translations := [("de", "Rot")] }]
                      wineTypes := [{ name := "still wine", translations := [("de", "Stillwein")] }] }
           ready := true }, none) := by
  have h := initRefService_failure_spec {} Fixtures.c7Fetches rfl
  refine ⟨h.1 (by decide), ?_⟩
  have h2 := h.2.2 (by decide) Fixtures.c7GoodFetches
    [{ name := "red", translations := [("de", "Rot")] }]
    [{ name := "still wine", translations := [("de", "Stillwein")] }]
    rfl rfl
  exact h2

/-- **C9.** The TTL cache law for option fetches, on `fetchColorOptions`:
a first call with no live entry issues the query; a second call within the
TTL window issues no query and returns the stored value unchanged (the fetch
function runs exactly once over the two calls, whatever the second query
outcome would have been); a call past the TTL issues the query again; and in
general a call is served from cache only when a timestamp exists for the key
with `now - fetchedAt < TTL`. -/
theorem cache_ttl_law (st : FilterOptions.CacheState) (t₁ t₂ : Int)
    (languageCode : String) (q1 q2 : Except String (List (Option String)))
    (v : List String)
    (h0 : FilterOptions.shouldUseCache st t₁
      ("colors_" ++ FilterOptions.normalizeLanguageCode languageCode) = false)
    (h1 : (FilterOptions.fetchColorOptions st t₁ q1 languageCode).1 = .ok v) :
    (FilterOptions.fetchColorOptions st t₁ q1 languageCode).2.2 = true ∧
    (t₂ - t₁ < FilterOptions.CACHE_TTL →
      FilterOptions.fetchColorOptions
          ((FilterOptions.fetchColorOptions st t₁ q1 languageCode).2.1) t₂ q2 languageCode
        = (.ok v, (FilterOptions.fetchColorOptions st t₁ q1 languageCode).2.1, false)) ∧
    (FilterOptions.CACHE_TTL ≤ t₂ - t₁ →
      (FilterOptions.fetchColorOptions
          ((FilterOptions.fetchColorOptions st t₁ q1 languageCode).2.1) t₂ q2
          languageCode).2.2 = true) ∧
    (∀ (st' : FilterOptions.CacheState) (now : Int)
        (q : Except String (List (Option String))),
      (FilterOptions.fetchColorOptions st' now q languageCode).2.2 = false →
      ∃ ts, jsMapGet st'.timestamps
          ("colors_" ++ FilterOptions.normalizeLanguageCode languageCode) = some ts ∧
        now - ts < FilterOptions.CACHE_TTL) := by
  have hget : FilterOptions.getCacheValue st t₁
      ("colors_" ++ FilterOptions.normalizeLanguageCode languageCode) = none := by
    simp [FilterOptions.getCacheValue, h0]
  have hfourth : ∀ (st' : FilterOptions.CacheState) (now : Int)
      (q : Except String (List (Option String))),
      (FilterOptions.fetchColorOptions st' now q languageCode).2.2 = false →
      ∃ ts, jsMapGet st'.timestamps
          ("colors_" ++ FilterOptions.normalizeLanguageCode languageCode) = some ts ∧
        now - ts < FilterOptions.CACHE_TTL := by
    intro st' now q hfq
    rcases hgc : FilterOptions.getCacheValue st' now
        ("colors_" ++ FilterOptions.normalizeLanguageCode languageCode) with _ | c
    · exfalso
      rcases q with e | rows2
      · simp [FilterOptions.fetchColorOptions, hgc] at hfq
      · rw [show FilterOptions.fetchColorOptions st' now (.ok rows2) languageCode
            = (if ((jsSetDedup (FilterOptions.collectColorValues rows2)).length == 0) = true
               then (.error ("No color options found in database for language "
                      ++ FilterOptions.normalizeLanguageCode languageCode), st', true)
               else (.ok (jsSetDedup (FilterOptions.collectColorValues rows2)),
                 FilterOptions.setCacheValue st' now
                   ("colors_" ++ FilterOptions.normalizeLanguageCode languageCode)
                   (jsSetDedup (FilterOptions.collectColorValues rows2)), true))
          from by simp [FilterOptions.fetchColorOptions, hgc]] at hfq
        revert hfq
        split <;> simp
    · have hsc : FilterOptions.shouldUseCache st' now
          ("colors_" ++ FilterOptions.normalizeLanguageCode languageCode) = true := by
        by_contra hns
        have hnone : FilterOptions.getCacheValue st' now
            ("colors_" ++ FilterOptions.normalizeLanguageCode languageCode) = none := by
          unfold FilterOptions.getCacheValue
          rw [if_neg hns]
        rw [hnone] at hgc
        exact Option.noConfusion hgc
      unfold FilterOptions.shouldUseCache at hsc
      rcases hts : jsMapGet st'.timestamps
          ("colors_" ++ FilterOptions.normalizeLanguageCode languageCode) with _ | ts
      · rw [hts] at hsc
        simp at hsc
      · rw [hts] at hsc
        simp only [decide_eq_true_eq] at hsc
        exact ⟨ts, rfl, hsc⟩
  rcases q1 with e | rows
  · exfalso
    simp [FilterOptions.fetchColorOptions, hget] at h1
  · by_cases hemp :
        (((jsSetDedup (FilterOptions.collectColorValues rows)).length == 0) = true)
    · exfalso
      simp [FilterOptions.fetchColorOptions, hget, hemp] at h1
    · have hcall1 : FilterOptions.fetchColorOptions st t₁ (.ok rows) languageCode
          = (.ok (jsSetDedup (FilterOptions.collectColorValues rows)),
             FilterOptions.setCacheValue st t₁
               ("colors_" ++ FilterOptions.normalizeLanguageCode languageCode)
               (jsSetDedup (FilterOptions.collectColorValues rows)), true) := by
        simp [FilterOptions.fetchColorOptions, hget, hemp]
      have hv : jsSetDedup (FilterOptions.collectColorValues rows) = v := by
        rw [hcall1] at h1
        simpa using h1
      rw [hcall1, hv]
      refine ⟨rfl, ?_, ?_, hfourth⟩
      · intro hlt
        have hgv : FilterOptions.getCacheValue
            (FilterOptions.setCacheValue st t₁
              ("colors_" ++ FilterOptions.normalizeLanguageCode languageCode) v) t₂
            ("colors_" ++ FilterOptions.normalizeLanguageCode languageCode) = some v := by
          simp [FilterOptions.getCacheValue, FilterOptions.shouldUseCache,
            FilterOptions.setCacheValue, jsMapGet_jsMapSet_self, hlt]
        simp [FilterOptions.fetchColorOptions, hgv]
      · intro hge
        have hgn : FilterOptions.getCacheValue
            (FilterOptions.setCacheValue st t₁
              ("colors_" ++ FilterOptions.normalizeLanguageCode languageCode) v) t₂
            ("colors_" ++ FilterOptions.normalizeLanguageCode languageCode) = none := by
          simp [FilterOptions.getCacheValue, FilterOptions.shouldUseCache,
            FilterOptions.setCacheValue, jsMapGet_jsMapSet_self, not_lt.mpr hge]
        rcases q2 with e2 | rows2
        · simp [FilterOptions.fetchColorOptions, hgn]
        · rw [show FilterOptions.fetchColorOptions
              (FilterOptions.setCacheValue st t₁
                ("colors_" ++ FilterOptions.normalizeLanguageCode languageCode) v) t₂
              (.ok rows2) languageCode
              = (if ((jsSetDedup (FilterOptions.collectColorValues rows2)).length == 0) = true
                 then (.error ("No color options found in database for language "
                        ++ FilterOptions.normalizeLanguageCode languageCode),
                   FilterOptions.setCacheValue st t₁
                     ("colors_" ++ FilterOptions.normalizeLanguageCode languageCode) v, true)
                 else (.ok (jsSetDedup (FilterOptions.collectColorValues rows2)),
                   FilterOptions.setCacheValue
                     (FilterOptions.setCacheValue st t₁
                       ("colors_" ++ FilterOptions.normalizeLanguageCode languageCode) v) t₂
                     ("colors_" ++ FilterOptions.normalizeLanguageCode languageCode)
                     (jsSetDedup (FilterOptions.collectColorValues rows2)), true))
            from by simp [FilterOptions.fetchColorOptions, hgn]]
          split <;> rfl

/-- Witness for C9: a first fetch at time 0, a cached second call at time
1000 (no query issued even though the backend would error), and a refetch at
time 300000 (the TTL boundary). -/
theorem cache_ttl_law_witness :
    (FilterOptions.fetchColorOptions {} 0 (.ok [some "Rot"]) "de").2.2 = true ∧
    FilterOptions.fetchColorOptions
        ((FilterOptions.fetchColorOptions {} 0 (.ok [some "Rot"]) "de").2.1) 1000
        (.error "down") "de"
      = (.ok ["Rot"], (FilterOptions.fetchColorOptions {} 0 (.ok [some "Rot"]) "de").2.1, false) ∧
    (FilterOptions.fetchColorOptions
        ((FilterOptions.fetchColorOptions {} 0 (.ok [some "Rot"]) "de").2.1) 300000
        (.error "down") "de").2.2 = true := by
  have h := cache_ttl_law {} 0 1000 "de" (.ok [some "Rot"]) (.error "down") ["Rot"]
    (by decide) rfl
  have h' := cache_ttl_law {} 0 300000 "de" (.ok [some "Rot"]) (.error "down") ["Rot"]
    (by decide) rfl
  exact ⟨h.1, h.2.1 (by decide), h'.2.2.1 (by decide)⟩

end Winder
